import Mathlib

/-!
Verification development for the Smart Recipe Generator app (`app.py`).

The app is a Streamlit front-end with five tabs:
* tab 1: upload a dish image, detect the dish via a vision model, then
  generate a recipe via a text model;
* tab 2: upload an ingredients image, detect ingredients via the vision
  model, then generate recipes via the text model;
* tab 3: type ingredients, generate recipes via the text model;
* tab 4: type a dish name, get a recipe via the text model;
* tab 5: export the last generated recipe to a PDF.

We embed each button action as a pure function from the environment, the
current session state, the widget inputs and the outcome(s) of the HTTP
call(s) to the resulting session state, the list of UI displays emitted,
and the list of request payloads actually posted.  The outcome of one
`requests.post(...)` together with the subsequent `response.json()` is
modelled as `Except String Json`: `.error e` is any exception raised by
the call or by JSON parsing, `.ok j` is the parsed JSON body.
-/

/-- JSON values, as returned by `response.json()`. -/
inductive Json where
  | null : Json
  | bool (b : Bool) : Json
  | num (n : Int) : Json
  | str (s : String) : Json
  | arr (elems : List Json) : Json
  | obj (fields : List (String × Json)) : Json

/-- Python truthiness of a JSON value (`None`, `0`, `""`, `[]`, `{}` are falsy). -/
def truthy : Json → Bool
  | .null => false
  | .bool b => b
  | .num n => n != 0
  | .str s => s != ""
  | .arr elems => !elems.isEmpty
  | .obj fields => !fields.isEmpty

/-- Python `d.get(k)`: `None` when the key is missing; raises
(`AttributeError`) when the receiver is not a dict. -/
def pyGet (j : Json) (k : String) : Except String (Option Json) :=
  match j with
  | .obj fields => .ok (List.lookup k fields)
  | _ => .error "AttributeError: object has no attribute get"

/-- Python `d[k]` for a string key: `KeyError` when missing, `TypeError`
when the receiver is not a dict. -/
def pySubscript (j : Json) (k : String) : Except String Json :=
  match j with
  | .obj fields =>
    match List.lookup k fields with
    | some v => .ok v
    | none => .error ("KeyError: " ++ k)
  | _ => .error "TypeError: object is not subscriptable by a string"

/-- Python `xs[i]` for a numeric index.  Indexing is modelled on lists;
indexing any other value raises.  (Python also allows indexing a string,
but the sole use `data["choices"][0]["message"]["content"]` then raises
a `TypeError` one step later on the single-character string, so the
observable behaviour — an exception inside the same `try` block — is
identical.) -/
def pyIndex (j : Json) (i : Nat) : Except String Json :=
  match j with
  | .arr elems =>
    match List.get? elems i with
    | some v => .ok v
    | none => .error "IndexError: list index out of range"
  | _ => .error "TypeError: object is not indexable"

/-- Python `len(x)`: defined for lists, dicts and strings. -/
def pyLen (j : Json) : Except String Nat :=
  match j with
  | .arr elems => .ok elems.length
  | .obj fields => .ok fields.length
  | .str s => .ok s.length
  | _ => .error "TypeError: object has no len"

/-- The characters removed by Python `str.strip()`. -/
def isPySpace (c : Char) : Bool :=
  c = ' ' || c = '\t' || c = '\n' || c = '\r' || c = '\x0b' || c = '\x0c'

/-- Python `s.strip()`: remove leading and trailing whitespace. -/
def pyStrip (s : String) : String :=
  String.mk ((((s.toList.dropWhile isPySpace).reverse).dropWhile isPySpace).reverse)

/-- The base64 alphabet used by `base64.b64encode`. -/
def b64alphabet : List Char :=
  "ABCDEFGHIJKLMNOPQRSTUVWXYZabcdefghijklmnopqrstuvwxyz0123456789+/".toList

/-- The base64 digit for a 6-bit value. -/
def b64char (n : Nat) : Char := List.getD b64alphabet n '='

/-- `base64.b64encode` over a byte sequence (bytes reduced mod 256),
followed by `.decode("utf-8")`. -/
def b64encode : List Nat → String
  | [] => ""
  | [a] =>
    let a' := a % 256
    String.mk [b64char (a' / 4), b64char ((a' % 4) * 16)] ++ "=="
  | [a, b] =>
    let a' := a % 256
    let b' := b % 256
    String.mk [b64char (a' / 4), b64char ((a' % 4) * 16 + b' / 16),
      b64char ((b' % 16) * 4)] ++ "="
  | a :: b :: c :: rest =>
    let a' := a % 256
    let b' := b % 256
    let c' := c % 256
    String.mk [b64char (a' / 4), b64char ((a' % 4) * 16 + b' / 16),
      b64char ((b' % 16) * 4 + c' / 64), b64char (c' % 64)] ++ b64encode rest

/-- `f"data:image/jpeg;base64,{encoded_image}"` where `encoded_image` is the
base64 encoding of the uploaded file's bytes (lines 45-47 of `app.py`). -/
def dataUrl (imageBytes : List Nat) : String :=
  "data:image/jpeg;base64," ++ b64encode imageBytes

/-- The environment variables read at startup (lines 13-15). -/
structure Env where
  OPENROUTER_API_KEY : String
  LLAMA_MODEL : String
  VISION_MODEL : String
  deriving DecidableEq

/-- The per-session state: `st.session_state["last_recipe"]` (initialised to
`""` at lines 23-24) and `st.session_state["detected_ingredients"]`
(only ever set by tab 2; `none` models the key being absent). -/
structure SessionState where
  last_recipe : String
  detected_ingredients : Option String
  deriving DecidableEq

/-- The session state of a fresh session (lines 23-24): `last_recipe` is the
empty string and `detected_ingredients` is not set.  Session state lives in
process memory only, so a restart begins from this value. -/
def initialSessionState : SessionState :=
  { last_recipe := "", detected_ingredients := none }

/-- One part of a multimodal message content list. -/
inductive ContentPart where
  | textPart (text : String) : ContentPart
  | imageUrlPart (url : String) : ContentPart
  deriving DecidableEq

/-- The `content` of a chat message: either a plain string or a list of parts. -/
inductive MsgContent where
  | str (s : String) : MsgContent
  | parts (l : List ContentPart) : MsgContent
  deriving DecidableEq

/-- One element of the `messages` list of a request body. -/
structure ChatMessage where
  role : String
  content : MsgContent
  deriving DecidableEq

/-- The JSON body posted to `https://openrouter.ai/api/v1/chat/completions`. -/
structure Payload where
  model : String
  messages : List ChatMessage
  temperature : ℚ
  max_tokens : Nat
  deriving DecidableEq

/-- A text-only request body (lines 106-111, 206-211, 267-272, 322-327). -/
def textPayload (model prompt : String) (temperature : ℚ) (max_tokens : Nat) : Payload :=
  { model := model
    messages := [{ role := "user", content := .str prompt }]
    temperature := temperature
    max_tokens := max_tokens }

/-- A vision request body (lines 60-73 and 155-168): a text question part
plus an `image_url` part, temperature 0.5, 300 max tokens. -/
def visionPayload (model question image_url : String) : Payload :=
  { model := model
    messages := [{ role := "user"
                   content := .parts [.textPart question, .imageUrlPart image_url] }]
    temperature := 0.5
    max_tokens := 300 }

/-- The UI outputs a button action can emit. -/
inductive Display where
  | errorMsg (s : String) : Display
  | warningMsg (s : String) : Display
  | successMsg (s : String) : Display
  | infoMsg (s : String) : Display
  | writeOut (s : String) : Display
  | subheaderOut (s : String) : Display
  | markdownOut (s : String) : Display
  deriving DecidableEq

/-- The observable result of one button action: the new session state, the
UI displays emitted in order, and the request payloads posted in order. -/
structure ActionResult where
  state : SessionState
  displays : List Display
  requests : List Payload
  deriving DecidableEq

/-- `result["choices"][0]["message"]["content"]` with Python exception
semantics (lines 78, 115, 173, 215, 275, 330); the content must be text. -/
def extractContent (j : Json) : Except String String :=
  match pySubscript j "choices" with
  | .error e => .error e
  | .ok c =>
    match pyIndex c 0 with
    | .error e => .error e
    | .ok c0 =>
      match pySubscript c0 "message" with
      | .error e => .error e
      | .ok m =>
        match pySubscript m "content" with
        | .error e => .error e
        | .ok (.str s) => .ok s
        | .ok _ => .error "TypeError: content is not a string"

/-- `extractContent` lifted over the outcome of an HTTP call: an error is
either the call raising or the body lacking the expected fields. -/
def extractFrom : Except String Json → Except String String
  | .error e => .error e
  | .ok j => extractContent j

/-- The guard `result.get("choices") and len(result["choices"]) > 0`
(lines 77 and 172) with Python exception semantics. -/
def choicesGuard (result : Json) : Except String Bool :=
  match pyGet result "choices" with
  | .error e => .error e
  | .ok none => .ok false
  | .ok (some c) =>
    if truthy c then
      match pySubscript result "choices" with
      | .error e => .error e
      | .ok c2 =>
        match pyLen c2 with
        | .error e => .error e
        | .ok n => .ok (decide (0 < n))
    else .ok false

/-- The vision question of tab 1 (line 66). -/
def tab1DishQuestion : String := "What dish or food is shown in this image?"

/-- The recipe prompt of tab 1 (lines 84-97), with the detected dish name
interpolated. -/
def tab1RecipePrompt (dish_name : String) : String :=
  "\nYou are an expert chef. Based on this dish name, generate a full recipe.\n\nDish Name: "
    ++ dish_name
    ++ "\n\nGenerate:\n1. Name of the dish\n2. List of required ingredients\n3. Step-by-step instructions\n4. Estimated cooking time\n5. Dietary notes (e.g., vegan, gluten-free if applicable)\n\nMake sure the recipe is safe to eat and matches the detected dish.\n"

/-- Tab 1, button "Detect Dish & Generate Recipe" (lines 49-128).
`http1` is the outcome of the vision call, `http2` of the recipe call
(the latter is consulted only when the second POST happens). -/
def tab1Action (env : Env) (st : SessionState) (imageBytes : List Nat)
    (http1 http2 : Except String Json) : ActionResult :=
  let payload1 := visionPayload env.VISION_MODEL tab1DishQuestion (dataUrl imageBytes)
  match http1 with
  | .error e => ⟨st, [.errorMsg ("Error analyzing image: " ++ e)], [payload1]⟩
  | .ok result =>
    match choicesGuard result with
    | .error e => ⟨st, [.errorMsg ("Error analyzing image: " ++ e)], [payload1]⟩
    | .ok false => ⟨st, [.warningMsg "Could not identify dish from image."], [payload1]⟩
    | .ok true =>
      match extractContent result with
      | .error e => ⟨st, [.errorMsg ("Error analyzing image: " ++ e)], [payload1]⟩
      | .ok dish_name =>
        let step1 := [Display.successMsg "Detected Dish:", Display.writeOut dish_name]
        let payload2 := textPayload env.LLAMA_MODEL (tab1RecipePrompt dish_name) 0.7 1200
        match http2 with
        | .error e =>
          ⟨st, step1 ++ [.errorMsg ("Error generating recipe: " ++ e)], [payload1, payload2]⟩
        | .ok data =>
          match extractContent data with
          | .error e =>
            ⟨st, step1 ++ [.errorMsg ("Error generating recipe: " ++ e)], [payload1, payload2]⟩
          | .ok recipe_text =>
            ⟨{ st with last_recipe := recipe_text },
             step1 ++ [.subheaderOut "Generated Recipe Based on Dish Image:",
               .markdownOut recipe_text],
             [payload1, payload2]⟩

/-- The vision question of tab 2 (line 161). -/
def tab2IngredientsQuestion : String := "List all visible ingredients in this image."

/-- The hard-coded dietary preferences of tab 2 (line 180). -/
def tab2DietaryPreferences : List String := ["Vegetarian", "Vegan", "Gluten-Free", "Low-Carb"]

/-- The recipe prompt of tab 2 (lines 183-197), with the detected
ingredients interpolated. -/
def tab2RecipePrompt (ingredients : String) : String :=
  "\nYou are an expert chef. Based on these ingredients, generate 3 creative recipes.\n\nIngredients: "
    ++ ingredients
    ++ "\nDietary Preferences: "
    ++ String.intercalate ", " tab2DietaryPreferences
    ++ "\n\nFor each recipe:\n1. Name\n2. Ingredients\n3. Instructions\n4. Cooking time\n5. Substitution suggestions\n\nEnsure recipes match dietary preferences and are safe to eat.\n"

/-- Tab 2, button "Detect Ingredients & Generate Recipes" (lines 144-228).
On a successful vision step the detected ingredients are stored in session
state (line 174) before the recipe call is attempted. -/
def tab2Action (env : Env) (st : SessionState) (imageBytes : List Nat)
    (http1 http2 : Except String Json) : ActionResult :=
  let payload1 := visionPayload env.VISION_MODEL tab2IngredientsQuestion (dataUrl imageBytes)
  match http1 with
  | .error e => ⟨st, [.errorMsg ("Error analyzing image: " ++ e)], [payload1]⟩
  | .ok result =>
    match choicesGuard result with
    | .error e => ⟨st, [.errorMsg ("Error analyzing image: " ++ e)], [payload1]⟩
    | .ok false => ⟨st, [.warningMsg "No ingredients found in the image."], [payload1]⟩
    | .ok true =>
      match extractContent result with
      | .error e => ⟨st, [.errorMsg ("Error analyzing image: " ++ e)], [payload1]⟩
      | .ok ingredients =>
        let st1 := { st with detected_ingredients := some ingredients }
        let step1 := [Display.successMsg "Detected Ingredients:", Display.writeOut ingredients]
        let payload2 := textPayload env.LLAMA_MODEL (tab2RecipePrompt ingredients) 0.7 1200
        match http2 with
        | .error e =>
          ⟨st1, step1 ++ [.errorMsg ("Error generating recipes: " ++ e)], [payload1, payload2]⟩
        | .ok data =>
          match extractContent data with
          | .error e =>
            ⟨st1, step1 ++ [.errorMsg ("Error generating recipes: " ++ e)], [payload1, payload2]⟩
          | .ok recipe_text =>
            ⟨{ st1 with last_recipe := recipe_text },
             step1 ++ [.subheaderOut "Recipes You Can Make with These Ingredients:",
               .markdownOut recipe_text],
             [payload1, payload2]⟩

/-- `", ".join(dietary_preferences) if dietary_preferences else
"No specific dietary preferences"` (line 238). -/
def tab3PreferencesStr (prefs : List String) : String :=
  if prefs.isEmpty then "No specific dietary preferences" else String.intercalate ", " prefs

/-- The recipe prompt of tab 3 (lines 244-258). -/
def tab3Prompt (ingredients preferences_str : String) : String :=
  "\nYou are an expert chef and assistant. Based on these ingredients and dietary preferences, generate 3 recipes.\n\nIngredients: "
    ++ ingredients
    ++ "\nDietary Preferences: "
    ++ preferences_str
    ++ "\n\nFor each recipe:\n1. Name of the dish\n2. List of ingredients needed\n3. Step-by-step instructions\n4. Estimated cooking time\n5. Notes on possible substitutions if ingredients are missing\n\nEnsure all recipes match dietary preferences. If certain core ingredients are missing, adjust the recipe safely.\n"

/-- The default value of tab 3's ingredients text area:
`st.session_state.get("detected_ingredients", "")` (line 233). -/
def tab3DefaultIngredients (st : SessionState) : String :=
  Option.getD st.detected_ingredients ""

/-- Tab 3, button "Generate Recipes" (lines 240-282).  An empty (after
strip) ingredients string is rejected before any HTTP call. -/
def tab3Action (env : Env) (st : SessionState) (ingredients : String)
    (prefs : List String) (http : Except String Json) : ActionResult :=
  if pyStrip ingredients = "" then
    ⟨st, [.errorMsg "Please enter at least one ingredient."], []⟩
  else
    let prompt := tab3Prompt ingredients (tab3PreferencesStr prefs)
    let payload := textPayload env.LLAMA_MODEL prompt 0.7 1200
    match http with
    | .error e => ⟨st, [.errorMsg ("An error occurred: " ++ e)], [payload]⟩
    | .ok data =>
      match extractContent data with
      | .error e => ⟨st, [.errorMsg ("An error occurred: " ++ e)], [payload]⟩
      | .ok recipe_text =>
        ⟨{ st with last_recipe := recipe_text },
         [.subheaderOut "Here are your 3 recipe suggestions:", .markdownOut recipe_text],
         [payload]⟩

/-- The recipe prompt of tab 4 (lines 294-313), with
`ingredients_override or "Assume full access"` (Python `or`: the override
is used whenever it is a non-empty string, even if only whitespace). -/
def tab4Prompt (dish_name ingredients_override : String) : String :=
  "\nYou are an expert chef and assistant. Provide a detailed recipe for \x27"
    ++ dish_name
    ++ "\x27.\n\nAvailable ingredients: "
    ++ (if ingredients_override = "" then "Assume full access" else ingredients_override)
    ++ "\n\nIf key ingredients are missing, morph the recipe safely using common substitutes.\nAlways provide 3 variations of the recipe:\n1. Original version\n2. Adapted version using available ingredients\n3. Alternate dish that can be made with similar flavor or theme\n\nInclude:\n- Ingredients needed\n- Step-by-step instructions\n- Estimated cooking time\n- Dietary notes if applicable\n- Safety note if substitutions were made\n\nMake sure none of the recipes would harm someone eating them.\n"

/-- Tab 4, button "Get Recipe" (lines 290-337).  An empty (after strip)
dish name is rejected before any HTTP call. -/
def tab4Action (env : Env) (st : SessionState) (dish_name ingredients_override : String)
    (http : Except String Json) : ActionResult :=
  if pyStrip dish_name = "" then
    ⟨st, [.errorMsg "Please enter a dish name."], []⟩
  else
    let prompt := tab4Prompt dish_name ingredients_override
    let payload := textPayload env.LLAMA_MODEL prompt 0.7 1200
    match http with
    | .error e => ⟨st, [.errorMsg ("An error occurred: " ++ e)], [payload]⟩
    | .ok data =>
      match extractContent data with
      | .error e => ⟨st, [.errorMsg ("An error occurred: " ++ e)], [payload]⟩
      | .ok recipe_text =>
        ⟨{ st with last_recipe := recipe_text },
         [.subheaderOut ("Recipes related to \x27" ++ dish_name ++ "\x27:"),
          .markdownOut recipe_text],
         [payload]⟩

/-- One `pdf.cell(0, 10, txt=line, ln=1)` row (line 356). -/
structure PdfRow where
  width : Nat
  height : Nat
  txt : String
  deriving DecidableEq

/-- The produced PDF document: the static header drawn by the `PDF.header`
override (lines 345-349) and the emitted text rows. -/
structure PdfDoc where
  headerText : String
  rows : List PdfRow
  deriving DecidableEq

/-- Splitting a character list at every newline.  The empty input gives one
empty segment, matching Python `"".split("\n") == [""]`. -/
def splitLinesAux : List Char → List (List Char)
  | [] => [[]]
  | c :: rest =>
    if c = '\n' then [] :: splitLinesAux rest
    else
      match splitLinesAux rest with
      | [] => [[c]]
      | h :: t => (c :: h) :: t

/-- Python `s.split("\n")` (line 355). -/
def pySplitLines (s : String) : List String :=
  List.map String.mk (splitLinesAux s.toList)

/-- The PDF built from a recipe text (lines 351-356): one fixed-height row
per newline-separated segment, in order, with no wrapping or truncation. -/
def exportPdf (text : String) : PdfDoc :=
  { headerText := "Generated Recipes"
    rows := List.map (fun line => { width := 0, height := 10, txt := line })
      (pySplitLines text) }

/-- Tab 5, "Export" (lines 340-364): when `last_recipe` is a non-empty
string (Python truthiness) it is rendered and serialized into a PDF;
otherwise an info message is shown and no PDF is produced. -/
def tab5Action (st : SessionState) : List Display × Option PdfDoc :=
  if st.last_recipe = "" then
    ([.infoMsg "Generate some recipes first before exporting."], none)
  else
    ([.markdownOut st.last_recipe], some (exportPdf st.last_recipe))

/-! ### Response fixtures and helper lemmas -/

/-- A response body of the shape documented for the endpoint, carrying the
given content text in `choices[0].message.content`. -/
def goodResp (t : String) : Json :=
  .obj [("choices", .arr [Json.obj [("message", Json.obj [("content", Json.str t)])]])]

/-- A response body whose `choices` list is present but empty. -/
def emptyChoicesResp : Json := .obj [("choices", .arr [])]

/-- A concrete environment used to instantiate universally quantified
theorems. -/
def envW : Env := ⟨"test-key", "llama-model", "vision-model"⟩

/-- A concrete session state used to instantiate universally quantified
theorems. -/
def stW : SessionState := ⟨"previous recipe", some "onion"⟩

/-- A JSON object whose `choices` entry is absent or is the empty list:
exactly the situations the spec calls "empty or missing `choices`". -/
def choicesEmptyOrMissing (j : Json) : Bool :=
  match j with
  | .obj fields =>
    match List.lookup "choices" fields with
    | none => true
    | some (.arr []) => true
    | some _ => false
  | _ => false

theorem extractContent_goodResp (t : String) : extractContent (goodResp t) = .ok t := rfl

theorem choicesGuard_of_extract {j : Json} {t : String} (h : extractContent j = .ok t) :
    choicesGuard j = .ok true := by
  cases j with
  | obj fields =>
    cases hc : List.lookup "choices" fields with
    | none => simp [extractContent, pySubscript, hc] at h
    | some c =>
      cases c with
      | arr elems =>
        cases elems with
        | nil => simp [extractContent, pySubscript, pyIndex, hc] at h
        | cons x xs => simp [choicesGuard, pyGet, pySubscript, pyLen, truthy, hc]
      | null => simp [extractContent, pySubscript, pyIndex, hc] at h
      | bool b => simp [extractContent, pySubscript, pyIndex, hc] at h
      | num n => simp [extractContent, pySubscript, pyIndex, hc] at h
      | str s => simp [extractContent, pySubscript, pyIndex, hc] at h
      | obj o => simp [extractContent, pySubscript, pyIndex, hc] at h
  | null => simp [extractContent, pySubscript] at h
  | bool b => simp [extractContent, pySubscript] at h
  | num n => simp [extractContent, pySubscript] at h
  | str s => simp [extractContent, pySubscript] at h
  | arr elems => simp [extractContent, pySubscript] at h

theorem choicesGuard_emptyOrMissing {j : Json} (h : choicesEmptyOrMissing j = true) :
    choicesGuard j = .ok false := by
  cases j with
  | obj fields =>
    cases hc : List.lookup "choices" fields with
    | none => simp [choicesGuard, pyGet, hc]
    | some c =>
      cases c with
      | arr elems =>
        cases elems with
        | nil => simp [choicesGuard, pyGet, truthy, hc]
        | cons x xs => simp [choicesEmptyOrMissing, hc] at h
      | null => simp [choicesEmptyOrMissing, hc] at h
      | bool b => simp [choicesEmptyOrMissing, hc] at h
      | num n => simp [choicesEmptyOrMissing, hc] at h
      | str s => simp [choicesEmptyOrMissing, hc] at h
      | obj o => simp [choicesEmptyOrMissing, hc] at h
  | null => simp [choicesEmptyOrMissing] at h
  | bool b => simp [choicesEmptyOrMissing] at h
  | num n => simp [choicesEmptyOrMissing] at h
  | str s => simp [choicesEmptyOrMissing] at h
  | arr elems => simp [choicesEmptyOrMissing] at h

theorem extractContent_emptyOrMissing {j : Json} (h : choicesEmptyOrMissing j = true) :
    ∃ e, extractContent j = .error e := by
  cases j with
  | obj fields =>
    cases hc : List.lookup "choices" fields with
    | none => exact ⟨"KeyError: choices", by simp [extractContent, pySubscript, hc]⟩
    | some c =>
      cases c with
      | arr elems =>
        cases elems with
        | nil =>
          exact ⟨"IndexError: list index out of range",
            by simp [extractContent, pySubscript, pyIndex, hc]⟩
        | cons x xs => simp [choicesEmptyOrMissing, hc] at h
      | null => simp [choicesEmptyOrMissing, hc] at h
      | bool b => simp [choicesEmptyOrMissing, hc] at h
      | num n => simp [choicesEmptyOrMissing, hc] at h
      | str s => simp [choicesEmptyOrMissing, hc] at h
      | obj o => simp [choicesEmptyOrMissing, hc] at h
  | null => simp [choicesEmptyOrMissing] at h
  | bool b => simp [choicesEmptyOrMissing] at h
  | num n => simp [choicesEmptyOrMissing] at h
  | str s => simp [choicesEmptyOrMissing] at h
  | arr elems => simp [choicesEmptyOrMissing] at h

/-! ### Claims -/

/-- C1: For the two generation actions taking text input (tab 3's
"Generate Recipes" and tab 4's "Get Recipe"), an input that is empty or
whitespace-only yields the rejection error message, no HTTP POST is
issued, and the session state is unchanged. -/
theorem C1_empty_text_input_rejected (env : Env) (st : SessionState)
    (ingredients dish_name ingredients_override : String) (prefs : List String)
    (http : Except String Json)
    (h3 : pyStrip ingredients = "") (h4 : pyStrip dish_name = "") :
    (tab3Action env st ingredients prefs http).requests = [] ∧
    (tab3Action env st ingredients prefs http).displays
      = [.errorMsg "Please enter at least one ingredient."] ∧
    (tab3Action env st ingredients prefs http).state = st ∧
    (tab4Action env st dish_name ingredients_override http).requests = [] ∧
    (tab4Action env st dish_name ingredients_override http).displays
      = [.errorMsg "Please enter a dish name."] ∧
    (tab4Action env st dish_name ingredients_override http).state = st := by
  simp [tab3Action, tab4Action, h3, h4]

/-- Witness for C1 at the concrete whitespace-only input `" \t"`. -/
theorem C1_empty_text_input_rejected_witness :
    (tab3Action envW stW " \t" [] (.ok Json.null)).requests = [] ∧
    (tab4Action envW stW " \t" "" (.ok Json.null)).requests = [] ∧
    (tab3Action envW stW " \t" [] (.ok Json.null)).state = stW := by
  have h := C1_empty_text_input_rejected envW stW " \t" " \t" "" [] (.ok Json.null) rfl rfl
  exact ⟨h.1, h.2.2.2.1, h.2.2.1⟩

/-- C2 (counterexample): at the concrete response `{"choices": []}`, tab 3's
generation action emits an error message (the flat catch-all), not a
warning/empty-state message as the claim states for every generation
action. -/
theorem C2_counterexample_tab3_empty_choices_is_error :
    (tab3Action envW stW "tomato" [] (.ok emptyChoicesResp)).displays
      = [.errorMsg "An error occurred: IndexError: list index out of range"] := rfl

/-- C2 (amended): a response with an empty or missing `choices` list never
crashes any action, but only the vision steps of tabs 1 and 2 show a
warning/empty-state message; tabs 3 and 4 surface the condition through
the generic catch-all as a flat error message.  Session state is unchanged
in all four cases. -/
theorem C2_empty_or_missing_choices_behaviour (env : Env) (st : SessionState)
    (imageBytes : List Nat) (ingredients dish_name ingredients_override : String)
    (prefs : List String) (j : Json) (http2 : Except String Json)
    (hj : choicesEmptyOrMissing j = true)
    (h3 : pyStrip ingredients ≠ "") (h4 : pyStrip dish_name ≠ "") :
    ((tab1Action env st imageBytes (.ok j) http2).displays
        = [.warningMsg "Could not identify dish from image."] ∧
      (tab1Action env st imageBytes (.ok j) http2).state = st) ∧
    ((tab2Action env st imageBytes (.ok j) http2).displays
        = [.warningMsg "No ingredients found in the image."] ∧
      (tab2Action env st imageBytes (.ok j) http2).state = st) ∧
    (∃ e, (tab3Action env st ingredients prefs (.ok j)).displays
        = [.errorMsg ("An error occurred: " ++ e)] ∧
      (tab3Action env st ingredients prefs (.ok j)).state = st) ∧
    (∃ e, (tab4Action env st dish_name ingredients_override (.ok j)).displays
        = [.errorMsg ("An error occurred: " ++ e)] ∧
      (tab4Action env st dish_name ingredients_override (.ok j)).state = st) := by
  obtain ⟨e, he⟩ := extractContent_emptyOrMissing hj
  have hg := choicesGuard_emptyOrMissing hj
  refine ⟨⟨?_, ?_⟩, ⟨?_, ?_⟩, ⟨e, ?_, ?_⟩, ⟨e, ?_, ?_⟩⟩ <;>
    simp [tab1Action, tab2Action, tab3Action, tab4Action, hg, he, h3, h4]

/-- Witness for the amended C2 at the concrete response `{"choices": []}`. -/
theorem C2_empty_or_missing_choices_behaviour_witness :
    (tab1Action envW stW [1, 2, 3] (.ok emptyChoicesResp) (.ok Json.null)).displays
      = [.warningMsg "Could not identify dish from image."] ∧
    (∃ e, (tab4Action envW stW "pasta" "" (.ok emptyChoicesResp)).displays
      = [.errorMsg ("An error occurred: " ++ e)]) := by
  have h := C2_empty_or_missing_choices_behaviour envW stW [1, 2, 3] "tomato" "pasta" ""
    [] emptyChoicesResp (.ok Json.null) rfl (by decide) (by decide)
  exact ⟨h.1.1, h.2.2.2.choose, h.2.2.2.choose_spec.1⟩

/-- C3: for every generation action, when the response is a successful JSON
body from which `choices[0].message.content` extracts (in particular the
`choices` list is non-empty), the displayed text is exactly that content,
unmodified. -/
theorem C3_success_displays_choices_content (env : Env) (st : SessionState)
    (imageBytes : List Nat) (ingredients dish_name ingredients_override : String)
    (prefs : List String) (j1 j2 : Json) (t1 t2 : String)
    (h1 : extractContent j1 = .ok t1) (h2 : extractContent j2 = .ok t2)
    (h3 : pyStrip ingredients ≠ "") (h4 : pyStrip dish_name ≠ "") :
    (tab1Action env st imageBytes (.ok j1) (.ok j2)).displays
      = [.successMsg "Detected Dish:", .writeOut t1,
         .subheaderOut "Generated Recipe Based on Dish Image:", .markdownOut t2] ∧
    (tab2Action env st imageBytes (.ok j1) (.ok j2)).displays
      = [.successMsg "Detected Ingredients:", .writeOut t1,
         .subheaderOut "Recipes You Can Make with These Ingredients:", .markdownOut t2] ∧
    (tab3Action env st ingredients prefs (.ok j1)).displays
      = [.subheaderOut "Here are your 3 recipe suggestions:", .markdownOut t1] ∧
    (tab4Action env st dish_name ingredients_override (.ok j1)).displays
      = [.subheaderOut ("Recipes related to \x27" ++ dish_name ++ "\x27:"),
         .markdownOut t1] := by
  have hg := choicesGuard_of_extract h1
  refine ⟨?_, ?_, ?_, ?_⟩ <;>
    simp [tab1Action, tab2Action, tab3Action, tab4Action, hg, h1, h2, h3, h4]

/-- Witness for C3 at concrete successful responses. -/
theorem C3_success_displays_choices_content_witness :
    (tab3Action envW stW "tomato, basil" [] (.ok (goodResp "RECIPE A"))).displays
      = [.subheaderOut "Here are your 3 recipe suggestions:", .markdownOut "RECIPE A"] ∧
    (tab1Action envW stW [1, 2, 3] (.ok (goodResp "Lasagna")) (.ok (goodResp "RECIPE B"))).displays
      = [.successMsg "Detected Dish:", .writeOut "Lasagna",
         .subheaderOut "Generated Recipe Based on Dish Image:", .markdownOut "RECIPE B"] := by
  have h := C3_success_displays_choices_content envW stW [1, 2, 3] "tomato, basil" "pasta" ""
    [] (goodResp "Lasagna") (goodResp "RECIPE B") "Lasagna" "RECIPE B" rfl rfl
    (by decide) (by decide)
  have h' := C3_success_displays_choices_content envW stW [1, 2, 3] "tomato, basil" "pasta" ""
    [] (goodResp "RECIPE A") (goodResp "RECIPE B") "RECIPE A" "RECIPE B" rfl rfl
    (by decide) (by decide)
  exact ⟨h'.2.2.1, h.1⟩

/-- C4: every successful run of any of the four generation actions
overwrites the single session slot `last_recipe` with that run's recipe
text, and the export action serializes exactly the current value of
`last_recipe` into the PDF (and nothing when it is empty). -/
theorem C4_last_recipe_slot (env : Env) (st : SessionState)
    (imageBytes : List Nat) (ingredients dish_name ingredients_override : String)
    (prefs : List String) (j1 j2 : Json) (t1 t2 : String)
    (h1 : extractContent j1 = .ok t1) (h2 : extractContent j2 = .ok t2)
    (h3 : pyStrip ingredients ≠ "") (h4 : pyStrip dish_name ≠ "") :
    (tab1Action env st imageBytes (.ok j1) (.ok j2)).state.last_recipe = t2 ∧
    (tab2Action env st imageBytes (.ok j1) (.ok j2)).state.last_recipe = t2 ∧
    (tab3Action env st ingredients prefs (.ok j1)).state.last_recipe = t1 ∧
    (tab4Action env st dish_name ingredients_override (.ok j1)).state.last_recipe = t1 ∧
    (st.last_recipe ≠ "" → (tab5Action st).2 = some (exportPdf st.last_recipe)) ∧
    (st.last_recipe = "" → (tab5Action st).2 = none) := by
  have hg := choicesGuard_of_extract h1
  refine ⟨?_, ?_, ?_, ?_, fun hne => ?_, fun he => ?_⟩ <;>
    simp [tab1Action, tab2Action, tab3Action, tab4Action, tab5Action,
      hg, h1, h2, h3, h4, *]

/-- Witness for C4 at concrete successful responses. -/
theorem C4_last_recipe_slot_witness :
    (tab3Action envW stW "tomato" [] (.ok (goodResp "RECIPE A"))).state.last_recipe
      = "RECIPE A" ∧
    (tab2Action envW stW [1, 2, 3] (.ok (goodResp "carrot")) (.ok (goodResp "RECIPE B"))).state.last_recipe
      = "RECIPE B" ∧
    (tab5Action stW).2 = some (exportPdf stW.last_recipe) := by
  have h := C4_last_recipe_slot envW stW [1, 2, 3] "tomato" "pasta" "" []
    (goodResp "carrot") (goodResp "RECIPE B") "carrot" "RECIPE B" rfl rfl
    (by decide) (by decide)
  have h' := C4_last_recipe_slot envW stW [1, 2, 3] "tomato" "pasta" "" []
    (goodResp "RECIPE A") (goodResp "RECIPE B") "RECIPE A" "RECIPE B" rfl rfl
    (by decide) (by decide)
  exact ⟨h'.2.2.1, h.2.1, h.2.2.2.2.1 (by decide)⟩

/-- C5: exporting the text `"A\nB\nC"` produces a PDF whose static header is
"Generated Recipes" and whose rows are exactly three fixed-height (10)
full-width (0 = full width in fpdf) text rows A, B, C in order, one row per
newline-separated segment, with no wrapping or truncation. -/
theorem C5_export_three_rows :
    (tab5Action { last_recipe := "A\nB\nC", detected_ingredients := none }).2
      = some { headerText := "Generated Recipes"
               rows := [{ width := 0, height := 10, txt := "A" },
                        { width := 0, height := 10, txt := "B" },
                        { width := 0, height := 10, txt := "C" }] } := rfl

/-! ### Request shapes -/

/-- Whether a payload attaches image data (contains an `image_url` part). -/
def hasImagePart (p : Payload) : Bool :=
  p.messages.any (fun m =>
    match m.content with
    | .str _ => false
    | .parts l => l.any (fun part =>
        match part with
        | .textPart _ => false
        | .imageUrlPart _ => true))

theorem tab1_requests_shape (env : Env) (st : SessionState) (imageBytes : List Nat)
    (http1 http2 : Except String Json) :
    ∃ pr, (tab1Action env st imageBytes http1 http2).requests
        = [visionPayload env.VISION_MODEL tab1DishQuestion (dataUrl imageBytes)] ∨
      (tab1Action env st imageBytes http1 http2).requests
        = [visionPayload env.VISION_MODEL tab1DishQuestion (dataUrl imageBytes),
           textPayload env.LLAMA_MODEL pr 0.7 1200] := by
  cases http1 with
  | error e => exact ⟨"", Or.inl rfl⟩
  | ok result =>
    cases hg : choicesGuard result with
    | error e => exact ⟨"", Or.inl (by simp [tab1Action, hg])⟩
    | ok b =>
      cases b with
      | false => exact ⟨"", Or.inl (by simp [tab1Action, hg])⟩
      | true =>
        cases hx : extractContent result with
        | error e => exact ⟨"", Or.inl (by simp [tab1Action, hg, hx])⟩
        | ok dish =>
          refine ⟨tab1RecipePrompt dish, Or.inr ?_⟩
          cases http2 with
          | error e => simp [tab1Action, hg, hx]
          | ok data =>
            cases hx2 : extractContent data with
            | error e => simp [tab1Action, hg, hx, hx2]
            | ok t => simp [tab1Action, hg, hx, hx2]

theorem tab2_requests_shape (env : Env) (st : SessionState) (imageBytes : List Nat)
    (http1 http2 : Except String Json) :
    ∃ pr, (tab2Action env st imageBytes http1 http2).requests
        = [visionPayload env.VISION_MODEL tab2IngredientsQuestion (dataUrl imageBytes)] ∨
      (tab2Action env st imageBytes http1 http2).requests
        = [visionPayload env.VISION_MODEL tab2IngredientsQuestion (dataUrl imageBytes),
           textPayload env.LLAMA_MODEL pr 0.7 1200] := by
  cases http1 with
  | error e => exact ⟨"", Or.inl rfl⟩
  | ok result =>
    cases hg : choicesGuard result with
    | error e => exact ⟨"", Or.inl (by simp [tab2Action, hg])⟩
    | ok b =>
      cases b with
      | false => exact ⟨"", Or.inl (by simp [tab2Action, hg])⟩
      | true =>
        cases hx : extractContent result with
        | error e => exact ⟨"", Or.inl (by simp [tab2Action, hg, hx])⟩
        | ok ing =>
          refine ⟨tab2RecipePrompt ing, Or.inr ?_⟩
          cases http2 with
          | error e => simp [tab2Action, hg, hx]
          | ok data =>
            cases hx2 : extractContent data with
            | error e => simp [tab2Action, hg, hx, hx2]
            | ok t => simp [tab2Action, hg, hx, hx2]

theorem tab3_requests_shape (env : Env) (st : SessionState) (ingredients : String)
    (prefs : List String) (http : Except String Json) :
    (tab3Action env st ingredients prefs http).requests = [] ∨
    (tab3Action env st ingredients prefs http).requests
      = [textPayload env.LLAMA_MODEL
          (tab3Prompt ingredients (tab3PreferencesStr prefs)) 0.7 1200] := by
  by_cases h : pyStrip ingredients = ""
  · exact Or.inl (by simp [tab3Action, h])
  · refine Or.inr ?_
    cases http with
    | error e => simp [tab3Action, h]
    | ok data =>
      cases hx : extractContent data with
      | error e => simp [tab3Action, h, hx]
      | ok t => simp [tab3Action, h, hx]

theorem tab4_requests_shape (env : Env) (st : SessionState)
    (dish_name ingredients_override : String) (http : Except String Json) :
    (tab4Action env st dish_name ingredients_override http).requests = [] ∨
    (tab4Action env st dish_name ingredients_override http).requests
      = [textPayload env.LLAMA_MODEL (tab4Prompt dish_name ingredients_override) 0.7 1200] := by
  by_cases h : pyStrip dish_name = ""
  · exact Or.inl (by simp [tab4Action, h])
  · refine Or.inr ?_
    cases http with
    | error e => simp [tab4Action, h]
    | ok data =>
      cases hx : extractContent data with
      | error e => simp [tab4Action, h, hx]
      | ok t => simp [tab4Action, h, hx]

theorem mem_requests_shape {env : Env} {st : SessionState} {imageBytes : List Nat}
    {ingredients dish_name ingredients_override : String} {prefs : List String}
    {http1 http2 http3 http4 : Except String Json} {p : Payload}
    (hp : p ∈ (tab1Action env st imageBytes http1 http2).requests ∨
          p ∈ (tab2Action env st imageBytes http1 http2).requests ∨
          p ∈ (tab3Action env st ingredients prefs http3).requests ∨
          p ∈ (tab4Action env st dish_name ingredients_override http4).requests) :
    (∃ q u, p = visionPayload env.VISION_MODEL q u) ∨
    (∃ pr, p = textPayload env.LLAMA_MODEL pr 0.7 1200) := by
  rcases hp with hp | hp | hp | hp
  · obtain ⟨pr, h | h⟩ := tab1_requests_shape env st imageBytes http1 http2 <;> rw [h] at hp
    · simp only [List.mem_singleton] at hp
      exact Or.inl ⟨_, _, hp⟩
    · simp only [List.mem_cons, List.mem_singleton, List.not_mem_nil, or_false] at hp
      rcases hp with rfl | rfl
      · exact Or.inl ⟨_, _, rfl⟩
      · exact Or.inr ⟨_, rfl⟩
  · obtain ⟨pr, h | h⟩ := tab2_requests_shape env st imageBytes http1 http2 <;> rw [h] at hp
    · simp only [List.mem_singleton] at hp
      exact Or.inl ⟨_, _, hp⟩
    · simp only [List.mem_cons, List.mem_singleton, List.not_mem_nil, or_false] at hp
      rcases hp with rfl | rfl
      · exact Or.inl ⟨_, _, rfl⟩
      · exact Or.inr ⟨_, rfl⟩
  · rcases tab3_requests_shape env st ingredients prefs http3 with h | h <;> rw [h] at hp
    · simp at hp
    · simp only [List.mem_singleton] at hp
      exact Or.inr ⟨_, hp⟩
  · rcases tab4_requests_shape env st dish_name ingredients_override http4 with h | h <;>
      rw [h] at hp
    · simp at hp
    · simp only [List.mem_singleton] at hp
      exact Or.inr ⟨_, hp⟩

/-- C6: every request issued by any of the four generation actions uses the
vision model identifier (`VISION_MODEL`) exactly when it attaches image
data, and the text model identifier (`LLAMA_MODEL`) when it is a text-only
prompt; no request mixes or swaps these. -/
theorem C6_model_selection (env : Env) (st : SessionState) (imageBytes : List Nat)
    (ingredients dish_name ingredients_override : String) (prefs : List String)
    (http1 http2 http3 http4 : Except String Json) (p : Payload)
    (hp : p ∈ (tab1Action env st imageBytes http1 http2).requests ∨
          p ∈ (tab2Action env st imageBytes http1 http2).requests ∨
          p ∈ (tab3Action env st ingredients prefs http3).requests ∨
          p ∈ (tab4Action env st dish_name ingredients_override http4).requests) :
    (hasImagePart p = true → p.model = env.VISION_MODEL) ∧
    (hasImagePart p = false → p.model = env.LLAMA_MODEL) := by
  rcases mem_requests_shape hp with ⟨q, u, rfl⟩ | ⟨pr, rfl⟩
  · exact ⟨fun _ => rfl, fun hf => by simp [hasImagePart, visionPayload] at hf⟩
  · exact ⟨fun ht => by simp [hasImagePart, textPayload] at ht, fun _ => rfl⟩

set_option maxRecDepth 8192 in
/-- Witness for C6: the vision request of tab 1 carries the vision model,
the text request of tab 3 carries the text model. -/
theorem C6_model_selection_witness :
    (visionPayload envW.VISION_MODEL tab1DishQuestion (dataUrl [1, 2, 3])).model
      = envW.VISION_MODEL ∧
    (textPayload envW.LLAMA_MODEL (tab3Prompt "tomato" (tab3PreferencesStr [])) 0.7 1200).model
      = envW.LLAMA_MODEL := by
  have h1 := C6_model_selection envW stW [1, 2, 3] "tomato" "pasta" "" []
    (.error "boom") (.error "boom") (.ok (goodResp "R")) (.error "boom")
    (visionPayload envW.VISION_MODEL tab1DishQuestion (dataUrl [1, 2, 3]))
    (Or.inl (by simp [tab1Action]))
  have h2 := C6_model_selection envW stW [1, 2, 3] "tomato" "pasta" "" []
    (.error "boom") (.error "boom") (.ok (goodResp "R")) (.error "boom")
    (textPayload envW.LLAMA_MODEL (tab3Prompt "tomato" (tab3PreferencesStr [])) 0.7 1200)
    (Or.inr (Or.inr (Or.inl (by
      unfold tab3Action
      rw [if_neg (by decide)]
      simp [extractContent_goodResp]))))
  exact ⟨h1.1 rfl, h2.2 rfl⟩

/-- C7: every request body is `{model, messages, temperature, max_tokens}`
where `messages` is a one-element list with role "user"; the image-bearing
first request of tabs 1 and 2 carries a text prompt part together with an
`image_url` part holding the uploaded image as a base64 data URL. -/
theorem C7_request_body_shape (env : Env) (st : SessionState) (imageBytes : List Nat)
    (ingredients dish_name ingredients_override : String) (prefs : List String)
    (http1 http2 http3 http4 : Except String Json) :
    (∀ p, (p ∈ (tab1Action env st imageBytes http1 http2).requests ∨
           p ∈ (tab2Action env st imageBytes http1 http2).requests ∨
           p ∈ (tab3Action env st ingredients prefs http3).requests ∨
           p ∈ (tab4Action env st dish_name ingredients_override http4).requests) →
      ∃ c, p.messages = [{ role := "user", content := c }]) ∧
    (tab1Action env st imageBytes http1 http2).requests.head?
      = some { model := env.VISION_MODEL
               messages := [{ role := "user"
                              content := .parts [.textPart tab1DishQuestion,
                                .imageUrlPart ("data:image/jpeg;base64," ++ b64encode imageBytes)] }]
               temperature := 0.5
               max_tokens := 300 } ∧
    (tab2Action env st imageBytes http1 http2).requests.head?
      = some { model := env.VISION_MODEL
               messages := [{ role := "user"
                              content := .parts [.textPart tab2IngredientsQuestion,
                                .imageUrlPart ("data:image/jpeg;base64," ++ b64encode imageBytes)] }]
               temperature := 0.5
               max_tokens := 300 } := by
  refine ⟨fun p hp => ?_, ?_, ?_⟩
  · rcases mem_requests_shape hp with ⟨q, u, rfl⟩ | ⟨pr, rfl⟩
    · exact ⟨_, rfl⟩
    · exact ⟨_, rfl⟩
  · obtain ⟨pr, h | h⟩ := tab1_requests_shape env st imageBytes http1 http2 <;> rw [h] <;> rfl
  · obtain ⟨pr, h | h⟩ := tab2_requests_shape env st imageBytes http1 http2 <;> rw [h] <;> rfl

set_option maxRecDepth 8192 in
/-- Witness for C7: the concrete bytes of "Man" are embedded as the data URL
`data:image/jpeg;base64,TWFu`, and a concrete text request has the
one-element "user" messages list. -/
theorem C7_request_body_shape_witness :
    (tab1Action envW stW [77, 97, 110] (.error "boom") (.error "boom")).requests.head?
      = some { model := "vision-model"
               messages := [{ role := "user"
                              content := .parts [.textPart tab1DishQuestion,
                                .imageUrlPart "data:image/jpeg;base64,TWFu"] }]
               temperature := 0.5
               max_tokens := 300 } ∧
    (∃ c, (textPayload envW.LLAMA_MODEL (tab4Prompt "pasta" "") 0.7 1200).messages
      = [{ role := "user", content := c }]) := by
  have h := C7_request_body_shape envW stW [77, 97, 110] "tomato" "pasta" "" []
    (.error "boom") (.error "boom") (.error "boom") (.ok (goodResp "R"))
  refine ⟨h.2.1, h.1 _ (Or.inr (Or.inr (Or.inr (by
    unfold tab4Action
    rw [if_neg (by decide)]
    simp [extractContent_goodResp]))))⟩

/-- C8: any raised failure of an external HTTP call is caught and surfaced
as a single flat error message; the action still returns normally (the
functions are total), the failing call is issued exactly once with no
retry, and no further (fallback) call follows a failure. -/
theorem C8_failures_caught (env : Env) (st : SessionState) (imageBytes : List Nat)
    (ingredients dish_name ingredients_override : String) (prefs : List String)
    (e : String) (j : Json) (t : String) (http2 : Except String Json)
    (h3 : pyStrip ingredients ≠ "") (h4 : pyStrip dish_name ≠ "")
    (hx : extractContent j = .ok t) :
    ((tab1Action env st imageBytes (.error e) http2).displays
        = [.errorMsg ("Error analyzing image: " ++ e)] ∧
      (tab1Action env st imageBytes (.error e) http2).requests.length = 1 ∧
      (tab1Action env st imageBytes (.error e) http2).state = st) ∧
    ((tab2Action env st imageBytes (.error e) http2).displays
        = [.errorMsg ("Error analyzing image: " ++ e)] ∧
      (tab2Action env st imageBytes (.error e) http2).requests.length = 1 ∧
      (tab2Action env st imageBytes (.error e) http2).state = st) ∧
    ((tab1Action env st imageBytes (.ok j) (.error e)).displays
        = [.successMsg "Detected Dish:", .writeOut t,
           .errorMsg ("Error generating recipe: " ++ e)] ∧
      (tab1Action env st imageBytes (.ok j) (.error e)).requests.length = 2 ∧
      (tab1Action env st imageBytes (.ok j) (.error e)).state = st) ∧
    ((tab2Action env st imageBytes (.ok j) (.error e)).displays
        = [.successMsg "Detected Ingredients:", .writeOut t,
           .errorMsg ("Error generating recipes: " ++ e)] ∧
      (tab2Action env st imageBytes (.ok j) (.error e)).requests.length = 2 ∧
      (tab2Action env st imageBytes (.ok j) (.error e)).state.last_recipe
        = st.last_recipe) ∧
    ((tab3Action env st ingredients prefs (.error e)).displays
        = [.errorMsg ("An error occurred: " ++ e)] ∧
      (tab3Action env st ingredients prefs (.error e)).requests.length = 1 ∧
      (tab3Action env st ingredients prefs (.error e)).state = st) ∧
    ((tab4Action env st dish_name ingredients_override (.error e)).displays
        = [.errorMsg ("An error occurred: " ++ e)] ∧
      (tab4Action env st dish_name ingredients_override (.error e)).requests.length = 1 ∧
      (tab4Action env st dish_name ingredients_override (.error e)).state = st) := by
  have hg := choicesGuard_of_extract hx
  refine ⟨⟨?_, ?_, ?_⟩, ⟨?_, ?_, ?_⟩, ⟨?_, ?_, ?_⟩, ⟨?_, ?_, ?_⟩, ⟨?_, ?_, ?_⟩,
    ⟨?_, ?_, ?_⟩⟩ <;>
    simp [tab1Action, tab2Action, tab3Action, tab4Action, hg, hx, h3, h4]

/-- Witness for C8 at a concrete raised failure "boom". -/
theorem C8_failures_caught_witness :
    (tab3Action envW stW "tomato" [] (.error "boom")).displays
      = [.errorMsg "An error occurred: boom"] ∧
    (tab1Action envW stW [1, 2, 3] (.error "boom") (.error "x")).requests.length = 1 ∧
    (tab1Action envW stW [1, 2, 3] (.ok (goodResp "Dish")) (.error "boom")).requests.length
      = 2 := by
  have h := C8_failures_caught envW stW [1, 2, 3] "tomato" "pasta" "" [] "boom"
    (goodResp "Dish") "Dish" (.error "x") (by decide) (by decide) rfl
  exact ⟨h.2.2.2.2.1.1, h.1.2.1, h.2.2.1.2.1⟩

/-- C9: when the ingredient-image action (tab 2) succeeds at the vision
step, the detected-ingredients text is stored in per-session state, and
tab 3's input field defaults to that stored text; a fresh session (as
after a restart) defaults to the empty string. -/
theorem C9_detected_ingredients (env : Env) (st : SessionState) (imageBytes : List Nat)
    (j : Json) (t : String) (http2 : Except String Json)
    (h : extractContent j = .ok t) :
    (tab2Action env st imageBytes (.ok j) http2).state.detected_ingredients = some t ∧
    tab3DefaultIngredients (tab2Action env st imageBytes (.ok j) http2).state = t ∧
    tab3DefaultIngredients initialSessionState = "" := by
  have hg := choicesGuard_of_extract h
  cases http2 with
  | error e =>
    refine ⟨?_, ?_, rfl⟩ <;> simp [tab2Action, tab3DefaultIngredients, hg, h]
  | ok data =>
    cases hx : extractContent data with
    | error e =>
      refine ⟨?_, ?_, rfl⟩ <;> simp [tab2Action, tab3DefaultIngredients, hg, h, hx]
    | ok t2 =>
      refine ⟨?_, ?_, rfl⟩ <;> simp [tab2Action, tab3DefaultIngredients, hg, h, hx]

/-- Witness for C9 at a concrete detected-ingredients response. -/
theorem C9_detected_ingredients_witness :
    (tab2Action envW stW [1, 2, 3] (.ok (goodResp "carrot, pea")) (.error "boom")).state.detected_ingredients
      = some "carrot, pea" ∧
    tab3DefaultIngredients
      (tab2Action envW stW [1, 2, 3] (.ok (goodResp "carrot, pea")) (.error "boom")).state
      = "carrot, pea" := by
  have h := C9_detected_ingredients envW stW [1, 2, 3] (goodResp "carrot, pea")
    "carrot, pea" (.error "boom") rfl
  exact ⟨h.1, h.2.1⟩

/-- C10: whenever an HTTP call raises or its response body lacks the
expected `choices[0].message.content` fields, the session slot
`last_recipe` keeps the value it had before the button press, for every
generation action. -/
theorem C10_last_recipe_unchanged_on_failure (env : Env) (st : SessionState)
    (imageBytes : List Nat) (ingredients dish_name ingredients_override : String)
    (prefs : List String) (http1 http2 http3 http4 : Except String Json)
    (e1 e2 e3 e4 : String) :
    (extractFrom http1 = .error e1 →
      (tab1Action env st imageBytes http1 http2).state.last_recipe = st.last_recipe ∧
      (tab2Action env st imageBytes http1 http2).state.last_recipe = st.last_recipe) ∧
    (extractFrom http2 = .error e2 →
      (tab1Action env st imageBytes http1 http2).state.last_recipe = st.last_recipe ∧
      (tab2Action env st imageBytes http1 http2).state.last_recipe = st.last_recipe) ∧
    (extractFrom http3 = .error e3 →
      (tab3Action env st ingredients prefs http3).state.last_recipe = st.last_recipe) ∧
    (extractFrom http4 = .error e4 →
      (tab4Action env st dish_name ingredients_override http4).state.last_recipe
        = st.last_recipe) := by
  refine ⟨fun h => ?_, fun h => ?_, fun h => ?_, fun h => ?_⟩
  · cases http1 with
    | error e => constructor <;> simp [tab1Action, tab2Action]
    | ok j =>
      simp only [extractFrom] at h
      cases hg : choicesGuard j with
      | error e => constructor <;> simp [tab1Action, tab2Action, hg]
      | ok b =>
        cases b with
        | false => constructor <;> simp [tab1Action, tab2Action, hg]
        | true => constructor <;> simp [tab1Action, tab2Action, hg, h]
  · cases http1 with
    | error e => constructor <;> simp [tab1Action, tab2Action]
    | ok j =>
      cases hg : choicesGuard j with
      | error e => constructor <;> simp [tab1Action, tab2Action, hg]
      | ok b =>
        cases b with
        | false => constructor <;> simp [tab1Action, tab2Action, hg]
        | true =>
          cases hx : extractContent j with
          | error e => constructor <;> simp [tab1Action, tab2Action, hg, hx]
          | ok dish =>
            cases http2 with
            | error e => constructor <;> simp [tab1Action, tab2Action, hg, hx]
            | ok data =>
              simp only [extractFrom] at h
              constructor <;> simp [tab1Action, tab2Action, hg, hx, h]
  · by_cases hs : pyStrip ingredients = ""
    · simp [tab3Action, hs]
    · cases http3 with
      | error e => simp [tab3Action, hs]
      | ok data =>
        simp only [extractFrom] at h
        simp [tab3Action, hs, h]
  · by_cases hs : pyStrip dish_name = ""
    · simp [tab4Action, hs]
    · cases http4 with
      | error e => simp [tab4Action, hs]
      | ok data =>
        simp only [extractFrom] at h
        simp [tab4Action, hs, h]

/-- Witness for C10: a raised call in tab 3 and a fields-missing body in
tab 1's second call both leave `last_recipe` untouched. -/
theorem C10_last_recipe_unchanged_on_failure_witness :
    (tab3Action envW stW "tomato" [] (.error "boom")).state.last_recipe
      = stW.last_recipe ∧
    (tab1Action envW stW [1, 2, 3] (.ok (goodResp "Dish")) (.ok emptyChoicesResp)).state.last_recipe
      = stW.last_recipe := by
  have h := C10_last_recipe_unchanged_on_failure envW stW [1, 2, 3] "tomato" "pasta" "" []
    (.ok (goodResp "Dish")) (.ok emptyChoicesResp) (.error "boom") (.ok Json.null)
    "unused" "IndexError: list index out of range" "boom" "unused"
  exact ⟨h.2.2.1 rfl, (h.2.1 rfl).1⟩
